import Mathlib

/-
Formal model of the math-learning-assistant repository's sandboxed
code-execution service and chat tool-orchestration route.

The definitions are shallow embeddings of:
  - src/utils/executePython.ts   (validatePythonCode, executePythonCode)
  - src/components/PythonExecutor.tsx  (the POST /execute handler)
  - src/utils/chartUtils.ts      (getChart)
  - src/app/api/chat/route.ts    (the POST /chat tool-dispatch loop)

JavaScript strings are modelled as Lean String / List Char; the
filesystem and the child process are modelled by an explicit
environment of outcomes plus an event trace.
-/

namespace MathAssistant

/-! ## JavaScript string primitives -/

/-- The character set matched by JavaScript's regex class `\s` and removed
by `String.prototype.trim`: TAB LF VT FF CR SP NBSP LS PS ZWNBSP and the
Unicode space separators. -/
def isJsWhitespace (c : Char) : Bool :=
  c.toNat = 9 || c.toNat = 10 || c.toNat = 11 || c.toNat = 12 || c.toNat = 13 ||
  c.toNat = 32 || c.toNat = 160 || c.toNat = 5760 ||
  (decide (8192 ≤ c.toNat) && decide (c.toNat ≤ 8202)) ||
  c.toNat = 8232 || c.toNat = 8233 || c.toNat = 8239 || c.toNat = 8287 ||
  c.toNat = 12288 || c.toNat = 65279

/-- JavaScript `String.prototype.trim` on a character list: drop leading and
trailing whitespace. -/
def jsTrimList (l : List Char) : List Char :=
  ((l.dropWhile isJsWhitespace).reverse.dropWhile isJsWhitespace).reverse

/-- JavaScript `String.prototype.trim`. -/
def jsTrim (s : String) : String :=
  String.mk (jsTrimList s.toList)

/-- Does `hay` start with `needle`? (JavaScript `String.prototype.startsWith`,
used here as the building block for `includes`.) -/
def startsWithL : List Char → List Char → Bool
  | [], _ => true
  | _ :: _, [] => false
  | n :: ns, h :: hs => n == h && startsWithL ns hs

/-- JavaScript `String.prototype.includes`: does `needle` occur as a
contiguous substring of `hay`? -/
def containsSub (needle : List Char) : List Char → Bool
  | [] => startsWithL needle []
  | c :: cs => startsWithL needle (c :: cs) || containsSub needle cs

/-- JavaScript `String.prototype.replace` with a plain-string pattern and
empty replacement: remove the first occurrence of `needle`. -/
def replaceFirst (needle : List Char) : List Char → List Char
  | [] => []
  | c :: cs =>
    if startsWithL needle (c :: cs) then (c :: cs).drop needle.length
    else c :: replaceFirst needle cs

/-- JavaScript `String.prototype.split(",")` on a character list. -/
def splitComma : List Char → List (List Char)
  | [] => [[]]
  | c :: cs =>
    let r := splitComma cs
    if c = ',' then [] :: r
    else
      match r with
      | [] => [[c]]
      | h :: t => (c :: h) :: t

/-! ## validatePythonCode (src/utils/executePython.ts, lines 16-35)

The source extracts import statements with the regex
`/import\s+([a-zA-Z0-9_,\s]+)/g`, strips the keyword, trims, splits on
commas, and requires every named module to be in `ALLOWED_MODULES`;
then it rejects the snippet if any blacklisted substring occurs. -/

/-- The characters matched by the regex class `[a-zA-Z0-9_,\s]` (JS regex
letters and digits are ASCII-only). -/
def isImportClassChar (c : Char) : Bool :=
  c.isAlpha || c.isDigit || c == '_' || c == ',' || isJsWhitespace c

/-- The literal characters of the keyword matched by the regex. -/
def kwImport : List Char := "import".toList

/-- One attempt of the regex `import\s+[a-zA-Z0-9_,\s]+` anchored at the head
of `s`. The greedy run after the keyword must begin with a whitespace
character (for `\s+`) and contain at least one further class character
(for the `+` of the class); the match, when it exists, consumes the keyword
plus the whole greedy run, exactly as the backtracking regex engine does. -/
def matchImportAt (s : List Char) : Option (List Char × List Char) :=
  if startsWithL kwImport s then
    let t := s.drop 6
    let run := t.takeWhile isImportClassChar
    match run with
    | c1 :: _ :: _ =>
      if isJsWhitespace c1 then some (kwImport ++ run, t.drop run.length)
      else none
    | _ => none
  else none

/-- Global regex scan: find successive non-overlapping matches, resuming
after each match (JavaScript `String.prototype.match` with the `g` flag).
The fuel argument is the length of the scanned text; every step consumes at
least one character, so the fuel never runs out. -/
def scanImports : Nat → List Char → List (List Char)
  | 0, _ => []
  | _ + 1, [] => []
  | fuel + 1, c :: cs =>
    match matchImportAt (c :: cs) with
    | some (m, rest) => m :: scanImports fuel rest
    | none => scanImports fuel cs

/-- All matches of the global import regex in `code`
(`code.match(/import\s+([a-zA-Z0-9_,\s]+)/g) || []`). -/
def foundImportMatches (code : List Char) : List (List Char) :=
  scanImports code.length code

/-- `ALLOWED_MODULES` from the source. -/
def allowedModules : List (List Char) :=
  ["math", "numpy", "statistics", "random",
   "decimal", "fractions", "operator"].map String.toList

/-- The module names extracted from one regex match:
`match.replace('import', '').trim().split(',')`, each then trimmed at the
membership test. -/
def moduleNamesOf (m : List Char) : List (List Char) :=
  (splitComma (jsTrimList (replaceFirst kwImport m))).map jsTrimList

/-- The `blacklist` array of harmful substrings from the source. -/
def blacklistTerms : List String :=
  ["open", "file", "exec", "eval", "subprocess",
   "os.", "sys.", "__import__", "input("]

/-- `validatePythonCode` from src/utils/executePython.ts. The source
returns `false` from inside the loop on the first disallowed module and
otherwise falls through to the blacklist check; that early-return control
flow is equivalent to the conjunction written here. -/
def validatePythonCode (code : String) : Bool :=
  ((foundImportMatches code.toList).all fun m =>
      (moduleNamesOf m).all fun md => allowedModules.contains md)
  && !(blacklistTerms.any fun t => containsSub t.toList code.toList)

/-! ## executePythonCode (src/utils/executePython.ts, lines 37-74)

The executor writes the snippet to a fresh temporary file, runs
`python "<file>"` through `execAsync` with a 1 MiB output cap and a
5-second timeout, and cleans the file up in a `finally` block. The
filesystem and the child process are external, so their outcomes are an
explicit environment; the calls the executor makes are recorded as an
event trace. -/

/-- Result value of `writeFile`: the promise either resolves or rejects
with an error message. -/
inductive WriteOutcome where
  | ok
  | failed (msg : String)
deriving DecidableEq

/-- Result value of `execAsync`: `completed` is the promise resolving
(which for `child_process.exec` means the process exited normally with
exit code zero), carrying the captured stdout and stderr; `timedOut` is a
rejection caused by the 5-second wall-clock limit, carrying the JavaScript
error's message; `failed` is any other rejection (launch or I/O error,
non-zero exit). -/
inductive ExecOutcome where
  | completed (stdout stderr : String)
  | timedOut (msg : String)
  | failed (msg : String)
deriving DecidableEq

/-- The environment of one executor invocation: the random temp-file name
chosen at line 42 and the outcomes of the two awaited external calls. -/
structure ExecEnv where
  tempName : String
  write : WriteOutcome := .ok
  run : ExecOutcome := .completed "" ""
deriving DecidableEq

/-- Externally visible calls made by one executor invocation. -/
inductive FsEvent where
  | writeFile (name : String)
  | execProc (name : String)
  | unlink (name : String)
deriving DecidableEq

/-- The JavaScript result object `{ output?: string; error?: string }`. -/
structure PyOut where
  output : Option String := none
  error : Option String := none
deriving DecidableEq

def invalidCodeMsg : String := "Invalid or unauthorized Python code"

def timeoutMsg : String := "Execution timed out"

/-- The `catch` clause, applied to the message of any rejection:
`error.message.includes('ETIMEDOUT') ? 'Execution timed out' : error.message`. -/
def catchMessage (m : String) : String :=
  if containsSub "ETIMEDOUT".toList m.toList then timeoutMsg else m

/-- `executePythonCode`, returning the result object together with the
trace of external calls. Validation failure returns before the temp name
is used; otherwise the `try` block writes and executes, the `catch` clause
maps rejections to messages, and the `finally` block always attempts one
`unlink` (whose own failure is caught and only logged, so it affects
neither the result nor the number of deletion attempts). -/
def executePythonCodeRun (env : ExecEnv) (code : String) : PyOut × List FsEvent :=
  if validatePythonCode code then
    let step : PyOut × List FsEvent :=
      match env.write with
      | .failed m => ({ error := some (catchMessage m) }, [.writeFile env.tempName])
      | .ok =>
        match env.run with
        | .completed out errS =>
          if errS ≠ "" then
            ({ error := some errS }, [.writeFile env.tempName, .execProc env.tempName])
          else
            ({ output := some (jsTrim out) }, [.writeFile env.tempName, .execProc env.tempName])
        | .timedOut m =>
          ({ error := some (catchMessage m) }, [.writeFile env.tempName, .execProc env.tempName])
        | .failed m =>
          ({ error := some (catchMessage m) }, [.writeFile env.tempName, .execProc env.tempName])
    (step.1, step.2 ++ [.unlink env.tempName])
  else
    ({ error := some invalidCodeMsg }, [])

/-- JavaScript truthiness of an optional string: `undefined`, `null` and
the empty string are falsy. -/
def jsTruthyStr : Option String → Bool
  | none => false
  | some s => s != ""

/-- The POST /execute route handler from src/components/PythonExecutor.tsx
(lines 51-69): `result.error` truthy yields HTTP 400 with the error body,
otherwise HTTP 200 with the output body. -/
def execHandler (env : ExecEnv) (code : String) : Nat × PyOut :=
  let result := (executePythonCodeRun env code).1
  if jsTruthyStr result.error then (400, { error := result.error })
  else (200, { output := result.output })

/-! ## getChart (src/utils/chartUtils.ts)

A pure transform from `(type, data, labels)` to a static Chart.js
configuration. JavaScript numbers only pass through it, so the data
points are modelled as integers. -/

structure ChartDataset where
  label : String
  data : List Int
  backgroundColor : String
  borderColor : String
  borderWidth : Nat
deriving DecidableEq

structure ChartData where
  labels : List String
  datasets : List ChartDataset
deriving DecidableEq

structure ChartOptions where
  responsive : Bool
  legendDisplay : Bool
deriving DecidableEq

structure ChartConfiguration where
  type : String
  data : ChartData
  options : ChartOptions
deriving DecidableEq

def getChart (type : String) (data : List Int) (labels : List String) : ChartConfiguration :=
  { type := type
    data :=
      { labels := labels
        datasets :=
          [{ label := "Generated Chart"
             data := data
             backgroundColor := "rgba(75, 192, 192, 0.2)"
             borderColor := "rgba(75, 192, 192, 1)"
             borderWidth := 1 }] }
    options := { responsive := true, legendDisplay := true } }

/-! ## The POST /chat tool-dispatch loop (src/app/api/chat/route.ts, lines 188-311)

The route sends the conversation to the model service, then walks the
parts of the model's first candidate in order. Each `functionCall` part is
dispatched through the `switch` statement; a truthy function response is
immediately sent back to the model as a function-response message, whose
reply becomes the final response. The model service is external, so the
response parts, the follow-up reply text and the follow-up failure mode
are environment data. -/

/-- The untyped `args` object of a function call; only the fields the four
tools read are modelled, each defaulting like an absent JS property. -/
structure FnArgs where
  code : String := ""
  type : String := ""
  data : List Int := []
  labels : List String := []
  question : String := ""
  options : List String := []
  correctAnswer : String := ""
deriving DecidableEq

/-- The possible shapes of `functionResponse` in the route: a plain string
(runPython), `{ chart: ... }`, `{ mermaid: ... }` or `{ quiz: args }`. -/
inductive ToolResult where
  | text (s : String)
  | chart (c : ChartConfiguration)
  | mermaid (code : String)
  | quiz (args : FnArgs)
deriving DecidableEq

/-- The text transform the route applies to diagram code in the
`generateMermaid` case: the code is returned unchanged — route.ts performs
no normalization and ignores `args.type` (lines 240-250 build
`functionResponse = { mermaid: args.code }`). -/
def diagramTransform (code : String) (type : String) : String := code

/-- The `generateMermaid` case of the switch (route.ts lines 240-250). -/
def generateMermaidResponse (args : FnArgs) : ToolResult :=
  .mermaid (diagramTransform args.code args.type)

/-- JavaScript `a || b` on optional strings: `a` when truthy, else `b`. -/
def jsOrStr (a b : Option String) : Option String :=
  match a with
  | some s => if s = "" then b else some s
  | none => b

/-- The `switch (functionName)` statement of the route (lines 219-266):
the registry mapping a tool name to its function response. `runPython`
forwards to the executor and takes `data.output || data.error`; the three
pure tools build their payloads; an unknown name yields `null`. (The
`try`/`catch` wrappers inside the known cases are dead in this model
because none of the modelled bodies throws.) -/
def dispatchTool (pyEnv : ExecEnv) (name : String) (args : FnArgs) : Option ToolResult :=
  if name = "runPython" then
    let d := (executePythonCodeRun pyEnv args.code).1
    (jsOrStr d.output d.error).map ToolResult.text
  else if name = "getChart" then
    some (.chart (getChart args.type args.data args.labels))
  else if name = "generateMermaid" then
    some (generateMermaidResponse args)
  else if name = "generateQuiz" then
    some (.quiz args)
  else none

/-- One part of the model response's first candidate. -/
inductive Part where
  | text (s : String)
  | functionCall (name : String) (args : FnArgs)
deriving DecidableEq

/-- Observable steps of the orchestration loop: dispatching a tool
invocation through the registry, and sending a follow-up function-response
message to the model service. -/
inductive LoopEvent where
  | dispatch (name : String)
  | followup (name : String)
deriving DecidableEq

/-- The `finalResponse` object built after a successful follow-up call. -/
structure FinalResponse where
  response : String
  functionOutput : ToolResult
deriving DecidableEq

/-- Outcome of walking the parts: either the loop finishes with the last
`finalResponse` (or none), or a follow-up call threw and the route
returned HTTP 500 at once. -/
inductive LoopOutcome where
  | done (fr : Option FinalResponse)
  | error500
deriving DecidableEq

/-- Environment of one chat request: the executor's environment, whether
the follow-up `sendMessage` calls throw, and the text the model returns to
a follow-up. -/
structure ChatEnv where
  pyEnv : ExecEnv
  followupFails : Bool := false
  followupText : String := ""
deriving DecidableEq

/-- JavaScript truthiness of `functionResponse`: `null` and the empty
string are falsy, objects are truthy. -/
def isTruthyTR : Option ToolResult → Bool
  | none => false
  | some (.text s) => s != ""
  | some _ => true

/-- The `for (const part of response.candidates[0].content.parts)` loop
(route.ts lines 212-291), returning the event trace and the outcome.
Each function-call part is dispatched in order; a truthy response is
followed at once by a follow-up `sendMessage` which (on success)
overwrites `finalResponse`, and whose failure returns HTTP 500
immediately. -/
def runLoop (env : ChatEnv) : List Part → Option FinalResponse → List LoopEvent × LoopOutcome
  | [], fr => ([], .done fr)
  | .text _ :: rest, fr => runLoop env rest fr
  | .functionCall name args :: rest, fr =>
    match dispatchTool env.pyEnv name args with
    | some tr =>
      if isTruthyTR (some tr) then
        if env.followupFails then
          ([.dispatch name, .followup name], .error500)
        else
          let next := runLoop env rest
            (some { response := env.followupText, functionOutput := tr })
          (.dispatch name :: .followup name :: next.1, next.2)
      else
        let next := runLoop env rest fr
        (.dispatch name :: next.1, next.2)
    | none =>
      let next := runLoop env rest fr
      (.dispatch name :: next.1, next.2)

/-- `response.text()` of the Gemini SDK: the concatenated text parts of the
first candidate. -/
def responseText (parts : List Part) : String :=
  String.join (parts.filterMap fun p =>
    match p with
    | .text s => some s
    | .functionCall _ _ => none)

/-- The JSON responses POST /chat can produce. -/
inductive ChatHttp where
  | okFinal (fr : FinalResponse)
  | okPlain (response : String)
  | err500
deriving DecidableEq

/-- The tail of the route handler (lines 294-305): the combined response is
`finalResponse` when a follow-up succeeded, otherwise the plain model
text. -/
def postChat (env : ChatEnv) (parts : List Part) : ChatHttp :=
  match (runLoop env parts none).2 with
  | .error500 => .err500
  | .done (some fr) => .okFinal fr
  | .done none => .okPlain (responseText parts)

/-- The four registered tool names of the route's switch statement. -/
def knownToolNames : List String :=
  ["runPython", "getChart", "generateMermaid", "generateQuiz"]

/-! ## Derived observations used to state the claims -/

/-- Is this trace event an unlink (deletion) call? -/
def isUnlinkEv : FsEvent → Bool
  | .unlink _ => true
  | _ => false

/-- The names of the tool invocations dispatched, in trace order. -/
def dispatchedNames (evs : List LoopEvent) : List String :=
  evs.filterMap fun e =>
    match e with
    | .dispatch n => some n
    | .followup _ => none

/-- The names of the function-call parts the model emitted, in order. -/
def emittedCallNames (parts : List Part) : List String :=
  parts.filterMap fun p =>
    match p with
    | .functionCall n _ => some n
    | .text _ => none

def isDispatchEv : LoopEvent → Bool
  | .dispatch _ => true
  | .followup _ => false

/-- Checks that once a follow-up has been sent, no further tool invocation
is dispatched — the trace-level reading of "the follow-up model call is
never issued before all tool results for that turn have been
collected". -/
def noDispatchAfterFollowup : List LoopEvent → Bool
  | [] => true
  | .dispatch _ :: rest => noDispatchAfterFollowup rest
  | .followup _ :: rest =>
    rest.all (fun e => !isDispatchEv e) && noDispatchAfterFollowup rest

/-- Checks that every follow-up in the trace comes immediately after the
dispatch of the same invocation (the per-invocation round-trip the route
actually performs). -/
def followupsImmediate : List LoopEvent → Bool
  | [] => true
  | .dispatch n :: .followup m :: rest => n == m && followupsImmediate rest
  | .dispatch _ :: rest => followupsImmediate rest
  | .followup _ :: _ => false

/-- A trace whose head is not a follow-up (auxiliary invariant: every
follow-up is preceded by its dispatch, so no trace starts with one). -/
def headNotFollowup : List LoopEvent → Bool
  | .followup _ :: _ => false
  | _ => true

/-- Modelled from the spec: the canonical header table of the
diagram-normalization algorithm (spec section 4.3, step 2). The route
contains no such mapping; this definition exists only to state the claims
about diagram headers. -/
def canonicalHeader : String → String
  | "flowchart" => "flowchart TD"
  | "sequence" => "sequenceDiagram"
  | "class" => "classDiagram"
  | "state" => "stateDiagram-v2"
  | "er" => "erDiagram"
  | "gantt" => "gantt"
  | _ => ""

/-- The orchestration-loop ordering property exactly as the claim states
it: invocations dispatched in emitted order, and no dispatch after any
follow-up has been issued. -/
def claimedLoopOrdering (env : ChatEnv) (parts : List Part) : Prop :=
  dispatchedNames (runLoop env parts none).1 = emittedCallNames parts ∧
  noDispatchAfterFollowup (runLoop env parts none).1 = true

/-! ## Concrete environments and inputs for witnesses and counterexamples -/

/-- An invocation whose write and run both succeed, the child printing
`4.0`. -/
def envOk : ExecEnv :=
  { tempName := "python-a1b2c3.py", write := .ok, run := .completed "4.0\n" "" }

/-- An invocation whose child process hits the 5-second wall clock; the
rejection message carries the ETIMEDOUT marker the catch clause tests
for. -/
def envTimeout : ExecEnv :=
  { tempName := "python-d4e5f6.py", write := .ok, run := .timedOut "spawn ETIMEDOUT" }

def chatEnv0 : ChatEnv :=
  { pyEnv := envOk, followupFails := false, followupText := "Here is the diagram." }

def argsG1 : FnArgs := { code := "A-->B", type := "flowchart" }

def argsG2 : FnArgs := { code := "C-->D", type := "flowchart" }

def argsW : FnArgs := { code := "print(1)" }

/-- A model response carrying two diagram invocations in one turn. -/
def partsTwoMermaid : List Part :=
  [.functionCall "generateMermaid" argsG1, .functionCall "generateMermaid" argsG2]

/-! ## Theorems for the claims about the validator and executor -/

/-- C1: contrary to the claim, the input body
`{code: "import math\nprint(math.sqrt(16))"}` is rejected by
`validatePythonCode` — the import regex's character class contains `\s`,
so the greedy match swallows the newline and the following identifier,
yielding the module name `"math\nprint"`, which is not in the allow-set —
and POST /execute therefore responds HTTP 400 with
`{error: "Invalid or unauthorized Python code"}` for every environment,
never HTTP 200 with `{output: "4.0"}`. -/
theorem c1_sqrt_scenario_rejected (env : ExecEnv) :
    validatePythonCode "import math\nprint(math.sqrt(16))" = false ∧
    execHandler env "import math\nprint(math.sqrt(16))" =
      (400, { error := some invalidCodeMsg }) := by
  have hv : validatePythonCode "import math\nprint(math.sqrt(16))" = false := by decide
  have ht : jsTruthyStr (some invalidCodeMsg) = true := by decide
  refine ⟨hv, ?_⟩
  simp [execHandler, executePythonCodeRun, hv, ht]

/-- C2: for every snippet that passes validation and every outcome of the
write, run and cleanup steps, the trace of the invocation contains exactly
one deletion call, and it targets the invocation's own temporary file. -/
theorem c2_cleanup_exactly_once (env : ExecEnv) (code : String)
    (hv : validatePythonCode code = true) :
    ((executePythonCodeRun env code).2.filter isUnlinkEv) =
      [FsEvent.unlink env.tempName] := by
  unfold executePythonCodeRun
  rcases env with ⟨n, w, r⟩
  cases w <;> cases r <;> simp [hv, isUnlinkEv] <;> split <;> simp [isUnlinkEv]

theorem c2_cleanup_exactly_once_witness :
    ((executePythonCodeRun envOk "print(7)").2.filter isUnlinkEv) =
      [FsEvent.unlink envOk.tempName] :=
  c2_cleanup_exactly_once envOk "print(7)" (by decide)

/-- C3: for every validated snippet whose child process exceeds the
5-second wall-clock timeout (surfacing, as the catch clause expects, as a
rejection whose message contains `ETIMEDOUT`), the executor returns
`{error: "Execution timed out"}` rather than the raw message. -/
theorem c3_timeout_message (env : ExecEnv) (code m : String)
    (hv : validatePythonCode code = true)
    (hw : env.write = .ok)
    (hr : env.run = .timedOut m)
    (hm : containsSub "ETIMEDOUT".toList m.toList = true) :
    (executePythonCodeRun env code).1 = { error := some timeoutMsg } := by
  unfold executePythonCodeRun
  have hm' : containsSub ['E', 'T', 'I', 'M', 'E', 'D', 'O', 'U', 'T'] m.data = true := hm
  simp [hv, hw, hr, catchMessage, hm']

theorem c3_timeout_message_witness :
    (executePythonCodeRun envTimeout "print(7)").1 = { error := some timeoutMsg } :=
  c3_timeout_message envTimeout "print(7)" "spawn ETIMEDOUT"
    (by decide) rfl rfl (by decide)

/-- C4: for every validated snippet whose child process exits normally
(exit code zero — the only case in which `execAsync` resolves), a
non-empty stderr makes the executor return `{error: stderr}`, and an empty
stderr makes it return `{output: trimmed stdout}`. -/
theorem c4_stderr_policy (env : ExecEnv) (code out errS : String)
    (hv : validatePythonCode code = true)
    (hw : env.write = .ok)
    (hr : env.run = .completed out errS) :
    (errS ≠ "" → (executePythonCodeRun env code).1 = { error := some errS }) ∧
    (errS = "" → (executePythonCodeRun env code).1 = { output := some (jsTrim out) }) := by
  unfold executePythonCodeRun
  constructor
  · intro h
    simp [hv, hw, hr, h]
  · intro h
    simp [hv, hw, hr, h]

theorem c4_stderr_policy_witness :
    (("" : String) ≠ "" →
      (executePythonCodeRun envOk "print(7)").1 = { error := some "" }) ∧
    (("" : String) = "" →
      (executePythonCodeRun envOk "print(7)").1 = { output := some (jsTrim "4.0\n") }) :=
  c4_stderr_policy envOk "print(7)" "4.0\n" "" (by decide) rfl rfl

/-- C5: any snippet containing a deny-listed substring anywhere in its
text is rejected by `validatePythonCode`, regardless of what the import
check concluded. -/
theorem c5_blacklist_rejects (code term : String)
    (ht : term ∈ blacklistTerms)
    (hc : containsSub term.toList code.toList = true) :
    validatePythonCode code = false := by
  unfold validatePythonCode
  have hany : (blacklistTerms.any fun t => containsSub t.toList code.toList) = true :=
    List.any_eq_true.mpr ⟨term, ht, hc⟩
  rw [hany]
  simp

/-- Witness input: the only import names an allowed module, yet the
snippet contains the deny-listed substring `open`. -/
theorem c5_blacklist_rejects_witness :
    validatePythonCode "open(1)\nimport math" = false :=
  c5_blacklist_rejects "open(1)\nimport math" "open" (by decide) (by decide)

/-- C10: for every snippet that fails validation, the executor returns
`{error: "Invalid or unauthorized Python code"}` with an empty event
trace — no temporary file is written, no child process is launched, no
deletion is attempted. -/
theorem c10_reject_no_side_effects (env : ExecEnv) (code : String)
    (hv : validatePythonCode code = false) :
    executePythonCodeRun env code = ({ error := some invalidCodeMsg }, []) := by
  unfold executePythonCodeRun
  simp [hv]

theorem c10_reject_no_side_effects_witness :
    executePythonCodeRun envOk "import os\nos.system('ls')" =
      ({ error := some invalidCodeMsg }, []) :=
  c10_reject_no_side_effects envOk "import os\nos.system('ls')" (by decide)

/-! ## Helper lemmas about the dispatch loop -/

lemma dispatchTool_unknown (pyEnv : ExecEnv) (name : String) (args : FnArgs)
    (h : name ∉ knownToolNames) : dispatchTool pyEnv name args = none := by
  simp only [knownToolNames, List.mem_cons, List.not_mem_nil, or_false, not_or] at h
  obtain ⟨h1, h2, h3, h4⟩ := h
  unfold dispatchTool
  rw [if_neg h1, if_neg h2, if_neg h3, if_neg h4]

lemma runLoop_cons_call_none (env : ChatEnv) (n : String) (a : FnArgs)
    (rest : List Part) (fr : Option FinalResponse)
    (hd : dispatchTool env.pyEnv n a = none) :
    runLoop env (.functionCall n a :: rest) fr =
      (.dispatch n :: (runLoop env rest fr).1, (runLoop env rest fr).2) := by
  simp [runLoop, hd]

lemma runLoop_cons_call_falsy (env : ChatEnv) (n : String) (a : FnArgs)
    (rest : List Part) (fr : Option FinalResponse) (tr : ToolResult)
    (hd : dispatchTool env.pyEnv n a = some tr)
    (htr : isTruthyTR (some tr) = false) :
    runLoop env (.functionCall n a :: rest) fr =
      (.dispatch n :: (runLoop env rest fr).1, (runLoop env rest fr).2) := by
  simp [runLoop, hd, htr]

lemma runLoop_cons_call_truthy (env : ChatEnv) (n : String) (a : FnArgs)
    (rest : List Part) (fr : Option FinalResponse) (tr : ToolResult)
    (hd : dispatchTool env.pyEnv n a = some tr)
    (htr : isTruthyTR (some tr) = true)
    (hf : env.followupFails = false) :
    runLoop env (.functionCall n a :: rest) fr =
      (.dispatch n :: .followup n ::
         (runLoop env rest (some { response := env.followupText, functionOutput := tr })).1,
       (runLoop env rest (some { response := env.followupText, functionOutput := tr })).2) := by
  simp [runLoop, hd, htr, hf]

lemma followupsImmediate_dispatch_cons (n : String) (t : List LoopEvent)
    (h2 : followupsImmediate t = true) (h3 : headNotFollowup t = true) :
    followupsImmediate (LoopEvent.dispatch n :: t) = true := by
  cases t with
  | nil => rfl
  | cons e t' =>
    cases e with
    | dispatch m => exact h2
    | followup m => simp [headNotFollowup] at h3

lemma runLoop_trace_shape (env : ChatEnv) (h : env.followupFails = false) :
    ∀ (parts : List Part) (fr : Option FinalResponse),
      dispatchedNames (runLoop env parts fr).1 = emittedCallNames parts ∧
      followupsImmediate (runLoop env parts fr).1 = true ∧
      headNotFollowup (runLoop env parts fr).1 = true := by
  intro parts
  induction parts with
  | nil => intro fr; exact ⟨rfl, rfl, rfl⟩
  | cons p rest ih =>
    intro fr
    cases p with
    | text s => exact ih fr
    | functionCall n a =>
      cases hd : dispatchTool env.pyEnv n a with
      | none =>
        obtain ⟨ih1, ih2, ih3⟩ := ih fr
        rw [runLoop_cons_call_none env n a rest fr hd]
        exact ⟨by simpa [dispatchedNames, emittedCallNames] using ih1,
               followupsImmediate_dispatch_cons n _ ih2 ih3, rfl⟩
      | some tr =>
        cases htr : isTruthyTR (some tr) with
        | false =>
          obtain ⟨ih1, ih2, ih3⟩ := ih fr
          rw [runLoop_cons_call_falsy env n a rest fr tr hd htr]
          exact ⟨by simpa [dispatchedNames, emittedCallNames] using ih1,
                 followupsImmediate_dispatch_cons n _ ih2 ih3, rfl⟩
        | true =>
          obtain ⟨ih1, ih2, _⟩ :=
            ih (some { response := env.followupText, functionOutput := tr })
          rw [runLoop_cons_call_truthy env n a rest fr tr hd htr h]
          refine ⟨by simpa [dispatchedNames, emittedCallNames] using ih1, ?_, rfl⟩
          show ((n == n) &&
            followupsImmediate
              (runLoop env rest
                (some { response := env.followupText, functionOutput := tr })).1) = true
          simp [ih2]

lemma runLoop_all_unknown (env : ChatEnv) (parts : List Part) :
    ∀ fr : Option FinalResponse,
      (∀ n a, Part.functionCall n a ∈ parts → n ∉ knownToolNames) →
      (runLoop env parts fr).2 = .done fr := by
  induction parts with
  | nil => intro fr _; rfl
  | cons p rest ih =>
    intro fr h
    cases p with
    | text s => exact ih fr fun n a hm => h n a (List.mem_cons_of_mem _ hm)
    | functionCall n a =>
      have hn : n ∉ knownToolNames := h n a (List.mem_cons_self _ _)
      rw [runLoop_cons_call_none env n a rest fr (dispatchTool_unknown env.pyEnv n a hn)]
      exact ih fr fun n' a' hm => h n' a' (List.mem_cons_of_mem _ hm)

/-! ## Theorems for the claims about the orchestration loop and diagrams -/

/-- C6 counterexample: for a turn in which the model emitted two tool
invocations, the route's trace is
dispatch, followup, dispatch, followup — the first follow-up model call is
issued before the second tool result has been collected, so the claimed
ordering property is false on this input. -/
theorem c6_ordering_counterexample :
    ¬ claimedLoopOrdering chatEnv0 partsTwoMermaid := by
  intro hcl
  have h2 := hcl.2
  revert h2
  decide

/-- C6 amended: within a single loop instance, tool invocations are
dispatched strictly in the order the model emitted them, but each truthy
tool result is round-tripped immediately: its follow-up model call is
issued directly after its own dispatch, before the next invocation is
dispatched, rather than after all tool results of the turn have been
collected. (Stated for runs in which no follow-up call throws.) -/
theorem c6_dispatch_order_roundtrip_per_call (env : ChatEnv) (parts : List Part)
    (h : env.followupFails = false) :
    dispatchedNames (runLoop env parts none).1 = emittedCallNames parts ∧
    followupsImmediate (runLoop env parts none).1 = true :=
  ⟨(runLoop_trace_shape env h parts none).1,
   (runLoop_trace_shape env h parts none).2.1⟩

theorem c6_dispatch_order_roundtrip_per_call_witness :
    dispatchedNames (runLoop chatEnv0 partsTwoMermaid none).1 =
      emittedCallNames partsTwoMermaid ∧
    followupsImmediate (runLoop chatEnv0 partsTwoMermaid none).1 = true :=
  c6_dispatch_order_roundtrip_per_call chatEnv0 partsTwoMermaid rfl

/-- C7: dispatching an invocation whose name is not one of the four
registered tools yields no ToolResult (the registry switch returns null),
and a turn consisting of such invocations falls back to the model's plain
text reply. -/
theorem c7_unknown_tool_plain_text (env : ChatEnv) (name : String) (args : FnArgs)
    (parts : List Part)
    (hname : name ∉ knownToolNames)
    (hparts : ∀ n a, Part.functionCall n a ∈ parts → n ∉ knownToolNames) :
    dispatchTool env.pyEnv name args = none ∧
    postChat env (Part.functionCall name args :: parts) =
      .okPlain (responseText (Part.functionCall name args :: parts)) := by
  refine ⟨dispatchTool_unknown env.pyEnv name args hname, ?_⟩
  unfold postChat
  have h2 : (runLoop env (Part.functionCall name args :: parts) none).2 = .done none := by
    apply runLoop_all_unknown
    intro n a hm
    rcases List.mem_cons.mp hm with he | hm'
    · cases he; exact hname
    · exact hparts n a hm'
  rw [h2]

theorem c7_unknown_tool_plain_text_witness :
    dispatchTool chatEnv0.pyEnv "solveRiddle" argsW = none ∧
    postChat chatEnv0 [Part.functionCall "solveRiddle" argsW, Part.text "The answer is 42."] =
      .okPlain (responseText [Part.functionCall "solveRiddle" argsW, Part.text "The answer is 42."]) :=
  c7_unknown_tool_plain_text chatEnv0 "solveRiddle" argsW [Part.text "The answer is 42."]
    (by decide) (by intro n a hm; simp at hm)

/-- C8 counterexample: for the diagram code `A-->B` of type `flowchart`,
the route's diagram transform returns the code unchanged, and the result
does not start with the canonical header `flowchart TD` — no header is
prepended. -/
theorem c8_no_header_counterexample :
    generateMermaidResponse { code := "A-->B", type := "flowchart" } =
      ToolResult.mermaid "A-->B" ∧
    ("A-->B").startsWith (canonicalHeader "flowchart") = false := by
  decide

/-- C8 amended: the generateMermaid tool passes the diagram code through
unchanged — the chat route answers with the code itself as the mermaid
payload, so the output starts with the canonical header for the type
exactly when the input already does; nothing is prepended. -/
theorem c8_diagram_passthrough (env : ChatEnv) (args : FnArgs)
    (h : env.followupFails = false) :
    postChat env [Part.functionCall "generateMermaid" args] =
      ChatHttp.okFinal
        { response := env.followupText,
          functionOutput := ToolResult.mermaid (diagramTransform args.code args.type) } ∧
    (diagramTransform args.code args.type).startsWith (canonicalHeader args.type) =
      args.code.startsWith (canonicalHeader args.type) := by
  refine ⟨?_, rfl⟩
  have hd : dispatchTool env.pyEnv "generateMermaid" args =
      some (ToolResult.mermaid (diagramTransform args.code args.type)) := rfl
  have htr : isTruthyTR (some (ToolResult.mermaid (diagramTransform args.code args.type))) =
      true := rfl
  unfold postChat
  rw [runLoop_cons_call_truthy env "generateMermaid" args [] none _ hd htr h]
  rfl

theorem c8_diagram_passthrough_witness :
    postChat chatEnv0 [Part.functionCall "generateMermaid" argsG1] =
      ChatHttp.okFinal
        { response := chatEnv0.followupText,
          functionOutput := ToolResult.mermaid (diagramTransform argsG1.code argsG1.type) } ∧
    (diagramTransform argsG1.code argsG1.type).startsWith (canonicalHeader argsG1.type) =
      argsG1.code.startsWith (canonicalHeader argsG1.type) :=
  c8_diagram_passthrough chatEnv0 argsG1 rfl

/-- C9: the diagram transform the route applies to diagram code is
idempotent — applying it twice yields the same result as applying it
once (it is in fact the identity on the code, so this holds for every
input and every type). -/
theorem c9_diagram_transform_idempotent (x t : String) :
    diagramTransform (diagramTransform x t) t = diagramTransform x t := rfl

end MathAssistant
